import Mathlib

/-!
Verification of the password-reset web flow repository: a shallow embedding
of the typed HTTP client (lib/passwordApi.ts), the two flow hooks
(hooks/useResetPassword.ts), the reset-password page form handler
(pages/reset-password.tsx), the development proxy
(pages/api/proxy/user/[...slug].ts) and the mock verify endpoint
(pages/api/user/verify-token.ts), together with theorems settling the
specification claims.
-/

/-! ## JavaScript value model -/

/-- JavaScript runtime values reachable in the code under study: JSON
values plus the distinguished value undefined (produced by field access on
a missing key and by uninitialised state). Numbers are modelled as
integers: no fractional or NaN behaviour is exercised by the code. -/
inductive Json where
  | undefined
  | null
  | bool (b : Bool)
  | num (n : Int)
  | str (s : String)
  | arr (elems : List Json)
  | obj (fields : List (String × Json))

/-- JavaScript truthiness of a value (the behaviour of placing the value in
a boolean context, as in Boolean(v) or an if condition). -/
def Json.truthy : Json → Bool
  | .undefined => false
  | .null => false
  | .bool b => b
  | .num n => n != 0
  | .str s => s != ""
  | .arr _ => true
  | .obj _ => true

/-- Optional-chaining field access v?.key: undefined when the receiver is
not an object or the key is missing. -/
def Json.get : Json → String → Json
  | .obj fields, key =>
    match fields.find? (fun p => p.1 == key) with
    | some p => p.2
    | none => .undefined
  | _, _ => .undefined

/-- A value is nullish when it is null or undefined (the values absorbed by
the JavaScript ?? operator). -/
def Json.isNullish : Json → Bool
  | .undefined => true
  | .null => true
  | _ => false

/-- The expression v ?? null. -/
def jsNullishCoalesceNull (v : Json) : Json := if v.isNullish then .null else v

/-- The expression s || fallback on strings: the empty string is falsy. -/
def jsOrElse (s fallback : String) : String := if s = "" then fallback else s

/-- Hexadecimal digit character, lower case. -/
def hexDigit (n : Nat) : Char := if n < 10 then Char.ofNat (48 + n) else Char.ofNat (87 + n)

/-- Escaping of one character inside a JSON string literal, following
JSON.stringify. -/
def jsonEscapeChar (c : Char) : String :=
  if c = '"' then "\\\""
  else if c = '\\' then "\\\\"
  else if c = '\n' then "\\n"
  else if c = '\r' then "\\r"
  else if c = '\t' then "\\t"
  else if c = '\x08' then "\\b"
  else if c = '\x0c' then "\\f"
  else if c.toNat < 32 then "\\u00" ++ String.mk [hexDigit (c.toNat / 16), hexDigit (c.toNat % 16)]
  else String.mk [c]

/-- JSON string-literal escaping, following JSON.stringify. -/
def jsonEscape (s : String) : String := String.join (s.data.map jsonEscapeChar)

mutual

/-- JSON.stringify. Object fields holding undefined are skipped and
undefined array elements render as null, as in JavaScript. A bare
undefined at top level is not produced by any call site in this code
(the proxy applies ?? before serialising), so its result here (the string
null, as inside an array) is never relied upon. -/
def Json.stringify : Json → String
  | .undefined => "null"
  | .null => "null"
  | .bool true => "true"
  | .bool false => "false"
  | .num n => toString n
  | .str s => "\"" ++ jsonEscape s ++ "\""
  | .arr elems => "[" ++ stringifyElems elems ++ "]"
  | .obj fields => "\x7b" ++ stringifyFields fields ++ "\x7d"
termination_by structural j => j

/-- Comma-joined serialisation of array elements. -/
def stringifyElems : List Json → String
  | [] => ""
  | [j] => Json.stringify j
  | j :: rest => Json.stringify j ++ "," ++ stringifyElems rest
termination_by structural l => l

/-- Comma-joined serialisation of object fields, skipping undefined values. -/
def stringifyFields : List (String × Json) → String
  | [] => ""
  | (_, .undefined) :: rest => stringifyFields rest
  | (k, v) :: rest =>
    let item := "\"" ++ jsonEscape k ++ "\":" ++ Json.stringify v
    let restStr := stringifyFields rest
    if restStr = "" then item else item ++ "," ++ restStr
termination_by structural l => l

end

mutual

/-- JavaScript String(v) conversion for the values above. -/
def Json.jsToString : Json → String
  | .undefined => "undefined"
  | .null => "null"
  | .bool true => "true"
  | .bool false => "false"
  | .num n => toString n
  | .str s => s
  | .arr elems => arrayJsToString elems
  | .obj _ => "[object Object]"
termination_by structural j => j

/-- Array.prototype.toString: elements joined with commas, null and
undefined rendered as the empty string. -/
def arrayJsToString : List Json → String
  | [] => ""
  | [.undefined] => ""
  | [.null] => ""
  | [j] => Json.jsToString j
  | .undefined :: rest => "," ++ arrayJsToString rest
  | .null :: rest => "," ++ arrayJsToString rest
  | j :: rest => Json.jsToString j ++ "," ++ arrayJsToString rest
termination_by structural l => l

end

/-! ## String helpers mirroring the JavaScript string methods used -/

/-- Index of the first occurrence of pat inside l, if any. -/
def firstInfixIdx (l pat : List Char) : Option Nat :=
  (List.range (l.length + 1)).find? (fun i => pat.isPrefixOf (l.drop i))

/-- String.prototype.includes. -/
def jsIncludes (s pat : String) : Bool := (firstInfixIdx s.data pat.data).isSome

/-- String.prototype.replace with a plain-string pattern: replaces only the
first occurrence. -/
def jsReplaceFirst (s pat repl : String) : String :=
  match firstInfixIdx s.data pat.data with
  | none => s
  | some i => String.mk (s.data.take i ++ repl.data ++ s.data.drop (i + pat.data.length))

/-- String.prototype.startsWith. -/
def jsStartsWith (s pre : String) : Bool := pre.data.isPrefixOf s.data

/-- String.prototype.toLowerCase, modelled for the ASCII names the code
lower-cases (header names). -/
def jsToLower (s : String) : String := String.mk (s.data.map Char.toLower)

/-! ## The email regular expression of useRequestReset

The hook validates with the anchored JavaScript regular expression
matching one or more characters that are neither an at sign nor
whitespace, an at sign, another such run, a literal dot, and a final such
run.  The matcher below is a direct decomposition semantics for that
pattern. -/

/-- The JavaScript regular-expression whitespace class (backslash-s):
space, tab, line feed, vertical tab, form feed, carriage return, no-break
space, ogham space mark, the en-quad through hair-space range, line and
paragraph separators, narrow no-break space, medium mathematical space,
ideographic space, and the byte-order mark. -/
def isJsWhitespace (c : Char) : Bool :=
  c = ' ' || c = '\t' || c = '\n' || c.toNat = 0x0b || c.toNat = 0x0c || c = '\r' ||
  c.toNat = 0xa0 || c.toNat = 0x1680 || (0x2000 ≤ c.toNat && c.toNat ≤ 0x200a) ||
  c.toNat = 0x2028 || c.toNat = 0x2029 || c.toNat = 0x202f || c.toNat = 0x205f ||
  c.toNat = 0x3000 || c.toNat = 0xfeff

/-- A character admitted by the negated class: not an at sign, not
whitespace. -/
def isAtomChar (c : Char) : Bool := !(c == '@' || isJsWhitespace c)

/-- A nonempty run of atom characters. -/
def atomRun (l : List Char) : Bool := !l.isEmpty && l.all isAtomChar

/-- Matches the domain portion of the pattern: an atom run, a literal dot,
an atom run. -/
def domainMatch (l : List Char) : Bool :=
  (List.range l.length).any (fun i =>
    l.get? i == some '.' && atomRun (l.take i) && atomRun (l.drop (i + 1)))

/-- Full-string match of the email pattern used by useRequestReset. -/
def emailRegexTest (s : String) : Bool :=
  (List.range s.data.length).any (fun i =>
    s.data.get? i == some '@' && atomRun (s.data.take i) && domainMatch (s.data.drop (i + 1)))

/-! ## HTTP client model (lib/passwordApi.ts) -/

/-- The ApiError thrown by the client: an HTTP status (0 for transport
failures), a message, and the parsed body as data. -/
structure ApiError where
  status : Nat
  message : String
  data : Json

/-- An HTTP response as observed by the client: the ok flag, status code,
status text, the content-type header (none when absent), the result of
res.json() (none when parsing would throw) and of res.text() (none when
reading would throw). -/
structure HttpResponse where
  ok : Bool
  status : Nat
  statusText : String
  contentType : Option String
  jsonBody : Option Json
  textBody : Option String

/-- Outcome of one fetch call: either the transport layer fails (carrying
the message string the code extracts from the thrown value) or a response
arrives. -/
inductive FetchOutcome where
  | netError (message : String)
  | response (res : HttpResponse)

/-- fetchWithHandling: transport failures become an ApiError with status 0
and a prefixed message.  The data field of that error wraps the original
thrown value, which is outside this model, so it is rendered as an object
with a single originalError field holding undefined. -/
def fetchWithHandling : FetchOutcome → Except ApiError HttpResponse
  | .netError m => .error ⟨0, "Network error or CORS issue: " ++ m, .obj [("originalError", .undefined)]⟩
  | .response r => .ok r

/-- The parsed body handleResponse works with: JSON when the content type
contains application/json (null when parsing fails), otherwise the body
text (null when reading fails). -/
def responseBodyOf (res : HttpResponse) : Json :=
  let ct := res.contentType.getD ""
  if jsIncludes ct "application/json" then
    match res.jsonBody with
    | some j => j
    | none => .null
  else
    match res.textBody with
    | some t => .str t
    | none => .null

/-- The best-effort error message for a non-ok response: the body's message
or error field when the body is truthy and the field is truthy, else the
status text, else a fixed fallback, converted with String(). -/
def errorMessageFor (body : Json) (statusText : String) : String :=
  let fromBody : Json :=
    if body.truthy then
      let m := body.get "message"
      if m.truthy then m else body.get "error"
    else .undefined
  if fromBody.truthy then fromBody.jsToString
  else if statusText != "" then statusText
  else "Request failed"

/-- handleResponse: parse the body, then either return it (ok) or throw an
ApiError carrying the status, best-effort message, and body. -/
def handleResponse (res : HttpResponse) : Except ApiError Json :=
  let body := responseBodyOf res
  if !res.ok then
    .error ⟨res.status, errorMessageFor body res.statusText, body⟩
  else
    .ok body

/-- requestRecoveryEmail: fetch then handleResponse, discarding the body.
URL construction is modelled separately by buildUrl; the fetch outcome is
supplied by the environment. -/
def requestRecoveryEmail (fetch : FetchOutcome) : Except ApiError Unit :=
  match fetchWithHandling fetch with
  | .error e => .error e
  | .ok res =>
    match handleResponse res with
    | .error e => .error e
    | .ok _ => .ok ()

/-- The record returned by verifyToken: valid is Boolean(body?.valid) and
email is body?.email ?? null. -/
structure VerifyResult where
  valid : Bool
  email : Json

/-- verifyToken: fetch, handleResponse, then normalise the body into a
VerifyResult. -/
def verifyToken (fetch : FetchOutcome) : Except ApiError VerifyResult :=
  match fetchWithHandling fetch with
  | .error e => .error e
  | .ok res =>
    match handleResponse res with
    | .error e => .error e
    | .ok body => .ok ⟨(body.get "valid").truthy, jsNullishCoalesceNull (body.get "email")⟩

/-- updatePassword: fetch then handleResponse, discarding the body. -/
def updatePassword (fetch : FetchOutcome) : Except ApiError Unit :=
  match fetchWithHandling fetch with
  | .error e => .error e
  | .ok res =>
    match handleResponse res with
    | .error e => .error e
    | .ok _ => .ok ()

/-! ## URL construction (buildUrl in lib/passwordApi.ts) -/

/-- A character allowed after the first one inside a URL scheme by the
regular expression the code tests the base against: letters, digits, plus,
dot, hyphen. -/
def schemeCharOk (c : Char) : Bool :=
  c.isAlpha || c.isDigit || c = '+' || c = '.' || c = '-'

/-- The test of the anchored scheme pattern: a letter, a run of scheme
characters, then colon slash slash.  The colon cannot occur inside the
run, so greedy matching is deterministic. -/
def hasUrlScheme (s : String) : Bool :=
  match s.data with
  | [] => false
  | c :: rest => c.isAlpha && ((rest.dropWhile schemeCharOk).take 3 = [':', '/', '/'])

/-- The origin of an absolute URL: everything up to and including the
authority, i.e. up to the first slash, question mark or hash after the
scheme separator.  Userinfo and bracketed IPv6 hosts are not modelled;
the bases used by this repository have neither. -/
def urlOrigin (url : String) : String :=
  match firstInfixIdx url.data "://".data with
  | none => url
  | some i =>
    String.mk (url.data.take (i + 3) ++
      (url.data.drop (i + 3)).takeWhile (fun c => !(c = '/' || c = '?' || c = '#')))

/-- The WHATWG resolution new URL(path, base).toString() for the fragment
the client exercises: base matches the scheme pattern and path begins with
a slash, so the result is the base's origin followed by the path (the
base's own path and query are discarded); host normalisation is not
modelled. -/
def jsNewURL (path base : String) : String := urlOrigin base ++ path

/-- The regex replace of one trailing slash applied to the base. -/
def jsReplaceEndSlash (s : String) : String :=
  if s.data.getLast? = some '/' then String.mk s.data.dropLast else s

/-- A value thrown by the client: either a plain Error (local validation)
or an ApiError (network layer). -/
inductive JsThrown where
  | plainError (message : String)
  | api (e : ApiError)

/-- buildUrl: throw a plain Error when no base is configured; resolve with
the URL constructor when the base has a scheme; otherwise concatenate the
base, stripped of one trailing slash, with the slash-prefixed path. -/
def buildUrl (apiBase path : String) : Except JsThrown String :=
  if apiBase = "" then .error (.plainError "NEXT_PUBLIC_API_BASE is not set")
  else if hasUrlScheme apiBase then .ok (jsNewURL path apiBase)
  else .ok (jsReplaceEndSlash apiBase ++ (if jsStartsWith path "/" then path else "/" ++ path))

/-! ## The request-reset hook (useRequestReset in hooks/useResetPassword.ts) -/

/-- State held by useRequestReset. -/
structure RequestState where
  email : String
  loading : Bool
  error : Option String
  info : Option String

/-- The initial hook state. -/
def initialRequestState : RequestState := ⟨"", false, none, none⟩

/-- The fixed generic confirmation shown after a successful request,
regardless of backend result. -/
def genericInfoMessage : String :=
  "Si existe una cuenta con ese correo, se envió un email con instrucciones."

/-- The validation error message for a malformed email. -/
def invalidEmailMessage : String := "Ingresa un correo válido"

/-- useRequestReset.submit: clear error and info, validate the email
locally (empty or failing the pattern sets the validation error and
returns without calling the network), otherwise call requestRecoveryEmail
and set either the generic confirmation or the caught error's message.
The boolean in the result records whether requestRecoveryEmail was
invoked.  The loading flag is set before the call and cleared in the
finally block; the returned state is the settled one. -/
def useRequestResetSubmit (s : RequestState) (fetch : FetchOutcome) :
    RequestState × Bool :=
  let s0 : RequestState := { s with error := none, info := none }
  if s0.email = "" || !(emailRegexTest s0.email) then
    ({ s0 with error := some invalidEmailMessage }, false)
  else
    match requestRecoveryEmail fetch with
    | .ok _ => ({ s0 with loading := false, info := some genericInfoMessage }, true)
    | .error e =>
      ({ s0 with
          loading := false,
          error := some (jsOrElse e.message "Error enviando solicitud") }, true)

/-- An operation on the request-reset hook: update the email field, or
submit with a given environment-chosen fetch outcome. -/
inductive ReqOp where
  | setEmail (e : String)
  | submit (fetch : FetchOutcome)

/-- One step of the request-reset hook. -/
def reqStep (s : RequestState) : ReqOp → RequestState
  | .setEmail e => { s with email := e }
  | .submit f => (useRequestResetSubmit s f).1

/-- A whole interaction with the request-reset hook from its initial
state. -/
def runReq (ops : List ReqOp) : RequestState :=
  ops.foldl reqStep initialRequestState

/-! ## The verify-and-update hook (useResetPassword in
hooks/useResetPassword.ts) -/

/-- State held by useResetPassword.  The token is fixed at construction
(the state setter is never used); verifiedEmail starts undefined and holds
whatever value the verification produced; isTokenValid is null until a
verification settles. -/
structure ResetState where
  token : Option String
  verifiedEmail : Json
  isTokenValid : Option Bool
  loadingVerify : Bool
  loadingSubmit : Bool
  error : Option String
  success : Option String

/-- The hook state as constructed with an initial token. -/
def initResetState (initialToken : Option String) : ResetState :=
  ⟨initialToken, .undefined, none, false, false, none, none⟩

/-- The fixed success message of the update flow. -/
def updateSuccessMessage : String :=
  "Contraseña actualizada con éxito. Puedes iniciar sesión."

/-- The fixed message mapped onto a 422 update failure. -/
def policyViolationMessage : String :=
  "La contraseña no cumple con la política del servidor"

/-- useResetPassword.verify: with no token, reset isTokenValid and
verifiedEmail to null and return (error and success untouched); otherwise
clear the error, call verifyToken, and either store its result or store
the caught error's message with isTokenValid false and verifiedEmail
null. -/
def useResetPasswordVerify (s : ResetState) (fetch : FetchOutcome) : ResetState :=
  match s.token with
  | none => { s with isTokenValid := none, verifiedEmail := .null }
  | some _ =>
    let s1 := { s with loadingVerify := true, error := none }
    match verifyToken fetch with
    | .ok r =>
      { s1 with
          isTokenValid := some r.valid,
          verifiedEmail := jsNullishCoalesceNull r.email,
          loadingVerify := false }
    | .error e =>
      { s1 with
          error := some (jsOrElse e.message "Error verificando token"),
          isTokenValid := some false,
          verifiedEmail := .null,
          loadingVerify := false }

/-- useResetPassword.submit: clear error and success; reject locally when
the verified email is falsy or the password is shorter than eight
characters; otherwise call updatePassword and set the success message, or
map a 422 failure to the fixed policy message and any other failure to its
own message or the generic fallback.  The optional pair in the result is
the (email, password) argument of the updatePassword invocation when one
was issued. -/
def useResetPasswordSubmit (s : ResetState) (password : String) (fetch : FetchOutcome) :
    ResetState × Option (Json × String) :=
  let s0 := { s with error := none, success := none }
  if !s0.verifiedEmail.truthy then
    ({ s0 with error := some "Email verificado no disponible" }, none)
  else if password = "" || password.length < 8 then
    ({ s0 with error := some "La contraseña debe tener al menos 8 caracteres" }, none)
  else
    match updatePassword fetch with
    | .ok _ =>
      ({ s0 with loadingSubmit := false, success := some updateSuccessMessage },
       some (s0.verifiedEmail, password))
    | .error e =>
      ({ s0 with
          loadingSubmit := false,
          error := some (if e.status == 422 then policyViolationMessage
                         else jsOrElse e.message "Error actualizando la contraseña") },
       some (s0.verifiedEmail, password))

/-- An operation on the verify-and-update hook, with its
environment-chosen fetch outcome. -/
inductive ResetOp where
  | verify (fetch : FetchOutcome)
  | submit (password : String) (fetch : FetchOutcome)

/-- Record of one updatePassword invocation: its arguments and the value
of isTokenValid at the moment of the call. -/
structure UpdateCall where
  email : Json
  password : String
  tokenValidAtCall : Option Bool

/-- One step of the verify-and-update hook, with the updatePassword
invocations it issues. -/
def resetStep (s : ResetState) : ResetOp → ResetState × List UpdateCall
  | .verify f => (useResetPasswordVerify s f, [])
  | .submit p f =>
    let out := useResetPasswordSubmit s p f
    (out.1, match out.2 with
            | none => []
            | some c => [⟨c.1, c.2, s.isTokenValid⟩])

/-- A whole interaction with the verify-and-update hook: final state and
the concatenated updatePassword invocations. -/
def runReset (s : ResetState) : List ResetOp → ResetState × List UpdateCall
  | [] => (s, [])
  | op :: rest =>
    let fst := resetStep s op
    let tl := runReset fst.1 rest
    (tl.1, fst.2 ++ tl.2)

/-! ## The reset-password page form handler (pages/reset-password.tsx)

The page calls the client directly (it imports verifyToken and
updatePassword from lib/passwordApi rather than going through the
useResetPassword hook).  Only the submit path is modelled; markup is out
of scope. -/

/-- The minimum password length: Number of the environment value, or 8.
The default configuration is modelled. -/
def minPasswordLength : Nat := 8

/-- The page's VerifyResponse record as stored in verifyResult: valid is
Boolean(data?.valid), email and message keep the raw values with null
collapsed to undefined. -/
structure PageVerifyResult where
  valid : Bool
  email : Json
  message : Json

/-- Outcome of onSubmitForm: the form error message if any, whether the
success pane was shown, and the (email, password) argument of the
updatePassword invocation when one was issued. -/
structure PageFormOutcome where
  formError : Option String
  formSuccess : Bool
  updateCalled : Option (Json × String)

/-- onSubmitForm: validate locally (length, match), then require the
verified email (throwing a plain Error otherwise, caught by the same
handler), then call updatePassword; on success show the success pane, on
failure surface the caught error's message or the generic fallback.  No
special treatment of status 422 occurs here. -/
def onSubmitForm (verifyResult : Option PageVerifyResult)
    (password confirm : String) (fetch : FetchOutcome) : PageFormOutcome :=
  if password = "" || password.length < minPasswordLength then
    ⟨some ("La contraseña debe tener al menos " ++ toString minPasswordLength ++
           " caracteres."), false, none⟩
  else if password != confirm then
    ⟨some "Las contraseñas no coinciden.", false, none⟩
  else
    let email : Json :=
      match verifyResult with
      | some v => v.email
      | none => .undefined
    if !email.truthy then
      ⟨some "No email available from token verification", false, none⟩
    else
      match updatePassword fetch with
      | .ok _ => ⟨none, true, some (email, password)⟩
      | .error e =>
        ⟨some (jsOrElse e.message "Error enviando la nueva contraseña"), false,
         some (email, password)⟩

/-! ## The development proxy (pages/api/proxy/user/[...slug].ts) -/

/-- The hop-by-hop header names stripped from the inbound request before
forwarding. -/
def hopByHopHeaderNames : List String :=
  ["connection", "keep-alive", "proxy-authenticate", "proxy-authorization",
   "te", "trailers", "transfer-encoding", "upgrade"]

/-- An inbound header value as Node exposes it: a string, an array of
strings, or undefined. -/
inductive HeaderValue where
  | str (s : String)
  | strs (l : List String)
  | undefined

/-- JavaScript falsiness of a header value: undefined and the empty string
are falsy, arrays never are. -/
def HeaderValue.falsy : HeaderValue → Bool
  | .undefined => true
  | .str s => s = ""
  | .strs _ => false

/-- Serialisation of a header value: arrays joined with commas. -/
def HeaderValue.serialize : HeaderValue → String
  | .str s => s
  | .strs l => String.intercalate "," l
  | .undefined => ""

/-- Assignment into a record object: overwrite an existing key, else
append. -/
def recordSet (out : List (String × String)) (k v : String) :
    List (String × String) :=
  if out.any (fun p => p.1 == k) then
    out.map (fun p => if p.1 == k then (k, v) else p)
  else out ++ [(k, v)]

/-- stripHopByHopHeaders: skip falsy values, skip names whose lower-case
form is hop-by-hop, join array values with commas, build a record. -/
def stripHopByHopHeaders (headers : List (String × HeaderValue)) :
    List (String × String) :=
  headers.foldl
    (fun out kv =>
      if kv.2.falsy then out
      else if hopByHopHeaderNames.contains (jsToLower kv.1) then out
      else recordSet out kv.1 (kv.2.serialize))
    []

/-- The rebuilt backend URL: the configured base stripped of one trailing
slash, the fixed user segment, the captured sub-path, and the rebuilt
query string when nonempty.  The query string itself is assembled upstream
from the query record minus the slug parameter; it is taken here as
given. -/
def buildBackendUrl (backendBase path qs : String) : String :=
  jsReplaceEndSlash backendBase ++ "/user/" ++ path ++
    (if qs = "" then "" else "?" ++ qs)

/-- The body forwarded by the proxy: omitted for GET, HEAD and OPTIONS,
otherwise JSON.stringify of the parsed incoming body with nullish bodies
replaced by an empty object.  The method is optional because req.method
may be undefined, in which case the code compares the empty string. -/
def forwardBody (method : Option String) (body : Json) : Option String :=
  if ["GET", "HEAD", "OPTIONS"].contains (method.getD "") then none
  else some (Json.stringify (if body.isNullish then .obj [] else body))

/-- The error value inspected by the retry heuristic: the string rendering
of err.cause ?? err, and the optional code property. -/
structure ProxyError where
  causeStr : String
  code : Option String

/-- The backend response observed by the proxy: status, headers as the
fetch Headers iteration yields them (lower-case unique names), and the raw
body bytes. -/
structure BackendResponse where
  status : Nat
  headersList : List (String × String)
  bodyBytes : List Nat

/-- Outcome of one proxy fetch attempt. -/
inductive ProxyFetchResult where
  | ok (r : BackendResponse)
  | fail (e : ProxyError)

/-- The connection-refused test: the rendered cause contains ECONNREFUSED,
or the code property equals it. -/
def errLooksConnRefused (e : ProxyError) : Bool :=
  jsIncludes e.causeStr "ECONNREFUSED" || e.code == some "ECONNREFUSED"

/-- One forwarded request: target URL, method, headers and body. -/
structure ForwardRequest where
  url : String
  method : String
  headers : List (String × String)
  body : Option String

/-- The fetch phase of the proxy handler: attempt the backend URL; if the
attempt fails with a connection-refused-looking error and the URL contains
the substring localhost, retry exactly once with the first occurrence
replaced by 127.0.0.1 and the same method, headers and body, propagating
the retry's own failure; any other failure propagates immediately.  The
second component lists the requests actually issued, in order.  Errors
propagate to the surrounding catch, which answers 502. -/
def proxyForward (fr : ForwardRequest)
    (net : ForwardRequest → ProxyFetchResult) :
    Except ProxyError BackendResponse × List ForwardRequest :=
  match net fr with
  | .ok r => (.ok r, [fr])
  | .fail e =>
    if errLooksConnRefused e && jsIncludes fr.url "localhost" then
      let alt : ForwardRequest := { fr with url := jsReplaceFirst fr.url "localhost" "127.0.0.1" }
      match net alt with
      | .ok r => (.ok r, [fr, alt])
      | .fail e2 => (.error e2, [fr, alt])
    else (.error e, [fr])

/-- The response the proxy sends back to the original caller. -/
structure RelayedResponse where
  status : Nat
  headers : List (String × String)
  body : List Nat

/-- The header names the relay loop skips when copying backend response
headers. -/
def relaySkippedHeaderNames : List String :=
  ["transfer-encoding", "connection", "keep-alive"]

/-- The relay step: forward the backend status, copy every backend header
whose lower-case name is not in the skipped list, and send the raw body
bytes. -/
def relayResponse (r : BackendResponse) : RelayedResponse :=
  ⟨r.status,
   r.headersList.filter (fun kv => !(relaySkippedHeaderNames.contains (jsToLower kv.1))),
   r.bodyBytes⟩

/-! ## The mock verify endpoint (pages/api/user/verify-token.ts) -/

/-- The mock verification route: a missing or empty token yields 400 with
valid false; a token starting with the word valid yields 200 with valid
true and the fixed email; anything else yields 200 with valid false and a
message.  The response is JSON in every case. -/
def mockVerifyToken (token : Option String) : HttpResponse :=
  match token with
  | none =>
    ⟨false, 400, "Bad Request", some "application/json",
     some (.obj [("valid", .bool false), ("message", .str "token missing")]), none⟩
  | some t =>
    if t = "" then
      ⟨false, 400, "Bad Request", some "application/json",
       some (.obj [("valid", .bool false), ("message", .str "token missing")]), none⟩
    else if jsStartsWith t "valid" then
      ⟨true, 200, "OK", some "application/json",
       some (.obj [("valid", .bool true), ("email", .str "user@example.com")]), none⟩
    else
      ⟨true, 200, "OK", some "application/json",
       some (.obj [("valid", .bool false),
                   ("message", .str "Token inválido o expirado")]), none⟩

/-! ## Derived notions used to state the claims -/

/-- The hostname of an absolute URL, under the same modelling restrictions
as urlOrigin: the authority up to the port separator; userinfo and
bracketed IPv6 hosts are not modelled. -/
def urlHostname (url : String) : String :=
  match firstInfixIdx url.data "://".data with
  | none => ""
  | some i =>
    String.mk (((url.data.drop (i + 3)).takeWhile
      (fun c => !(c = '/' || c = '?' || c = '#'))).takeWhile (fun c => !(c = ':')))

/-- The invariant claimed for verifyToken results: a non-null email only
together with a true valid flag. -/
def VerifyResult.consistent (r : VerifyResult) : Prop :=
  r.email ≠ Json.null → r.valid = true

/-- The corresponding property of a raw response body: a non-nullish email
field only together with a truthy valid field. -/
def bodyConsistent (body : Json) : Prop :=
  (body.get "email").isNullish = false → (body.get "valid").truthy = true

/-- Consistency of the verification outcome an operation carries: for a
verify operation, the VerifyResult the client would extract satisfies the
email-implies-valid invariant; submit operations carry none. -/
def verifyOutcomeConsistent : ResetOp → Prop
  | .verify f =>
    match verifyToken f with
    | .ok r => r.consistent
    | .error _ => True
  | .submit _ _ => True

/-- The safety invariant of the verify-and-update hook state: a truthy
verified email is only present while the last verification reported the
token valid. -/
def resetSafe (s : ResetState) : Prop :=
  s.verifiedEmail.truthy = true → s.isTokenValid = some true

/-- At most one of the error and info fields of the request-reset hook is
populated. -/
def atMostOneReq (s : RequestState) : Prop := s.error = none ∨ s.info = none

/-- At most one of the error and success fields of the verify-and-update
hook is populated. -/
def atMostOneReset (s : ResetState) : Prop := s.error = none ∨ s.success = none

/-! ## Concrete inputs used by witnesses and counterexamples -/

/-- A successful response carrying a body that would reveal whether the
account exists. -/
def c1wFetch : FetchOutcome := .response
  ⟨true, 200, "OK", some "application/json",
   some (.obj [("accountExists", .bool false)]), none⟩

/-- A request-reset state holding a well-formed email. -/
def c1wState : RequestState := ⟨"a@b.c", false, none, none⟩

/-- A verify response body pairing valid false with a non-null email. -/
def c2Fetch : FetchOutcome := .response
  ⟨true, 200, "OK", some "application/json",
   some (.obj [("valid", .bool false), ("email", .str "user@example.com")]), none⟩

/-- A successful update response. -/
def c2OkUpdate : FetchOutcome := .response
  ⟨true, 200, "OK", some "application/json", some (.obj [("ok", .bool true)]), none⟩

/-- Verify against the inconsistent body, then submit a valid password. -/
def c2Ops : List ResetOp := [.verify c2Fetch, .submit "password123" c2OkUpdate]

/-- A verify response body with valid true and the fixed email. -/
def c2wVerify : FetchOutcome := .response
  ⟨true, 200, "OK", some "application/json",
   some (.obj [("valid", .bool true), ("email", .str "user@example.com")]), none⟩

/-- A successful update response for the witness run. -/
def c2wUpdate : FetchOutcome := .response
  ⟨true, 200, "OK", some "application/json", some (.obj [("ok", .bool true)]), none⟩

/-- A consistent verify followed by a valid submit. -/
def c2wOps : List ResetOp := [.verify c2wVerify, .submit "password123" c2wUpdate]

/-- The same inconsistent verify body, used against claim C3. -/
def c3Fetch : FetchOutcome := .response
  ⟨true, 200, "OK", some "application/json",
   some (.obj [("valid", .bool false), ("email", .str "user@example.com")]), none⟩

/-- A consistent verify response for the C3 witness. -/
def c3wRes : HttpResponse :=
  ⟨true, 200, "OK", some "application/json",
   some (.obj [("valid", .bool true), ("email", .str "user@example.com")]), none⟩

/-- A backend URL whose hostname is not localhost but whose query string
contains the substring localhost. -/
def c4Url : String := buildBackendUrl "http://backend.example" "verify-token" "token=localhost"

/-- A connection-refused-looking failure. -/
def c4Err : ProxyError := ⟨"TypeError: fetch failed: connect ECONNREFUSED 93.184.216.34:80", none⟩

/-- A network in which the original URL is refused and anything else
answers. -/
def c4Net : ForwardRequest → ProxyFetchResult :=
  fun fr => if fr.url = c4Url then .fail c4Err else .ok ⟨200, [], []⟩

/-- The inbound request forwarded to the counterexample URL. -/
def c4Req : ForwardRequest := ⟨c4Url, "GET", [("accept", "*/*")], none⟩

/-- The default localhost backend URL of the repository configuration. -/
def c4wUrl : String := buildBackendUrl "http://localhost:8080" "verify-token" "token=abc"

/-- A refused connection against the localhost target. -/
def c4wErr : ProxyError := ⟨"Error: connect ECONNREFUSED ::1:8080", some "ECONNREFUSED"⟩

/-- The response the fallback target answers with. -/
def c4wRes : BackendResponse := ⟨200, [("content-type", "application/json")], [123, 125]⟩

/-- A network refusing the localhost URL and answering on the fallback. -/
def c4wNet : ForwardRequest → ProxyFetchResult :=
  fun fr => if fr.url = c4wUrl then .fail c4wErr else .ok c4wRes

/-- The witness request against the localhost target. -/
def c4wReq : ForwardRequest :=
  ⟨c4wUrl, "POST", [("content-type", "application/json")], some "\x7b\x7d"⟩

/-- The page's stored verification result after a valid token. -/
def c5PageVerify : PageVerifyResult := ⟨true, .str "user@example.com", .undefined⟩

/-- A 422 update rejection carrying a raw server message. -/
def c5Fetch : FetchOutcome := .response
  ⟨false, 422, "Unprocessable Entity", some "application/json",
   some (.obj [("message", .str "password rejected by upstream policy")]), none⟩

/-- The hook state after a successful verification, for comparison. -/
def c5HookState : ResetState :=
  ⟨some "sometoken", .str "user@example.com", some true, false, false, none, none⟩

/-- A backend response carrying hop-by-hop headers beyond the three the
relay strips. -/
def c7Response : BackendResponse :=
  ⟨200, [("te", "trailers"), ("upgrade", "h2c"), ("connection", "close"),
         ("content-type", "text/plain")], [104, 105]⟩

/-- A request-reset state holding an email without an at sign. -/
def c8wState : RequestState := ⟨"user.example.com", false, none, none⟩

/-- A successful verification outcome for the C9 counterexample run. -/
def c9VerifyOk : FetchOutcome := .response
  ⟨true, 200, "OK", some "application/json",
   some (.obj [("valid", .bool true), ("email", .str "user@example.com")]), none⟩

/-- A successful update outcome for the C9 counterexample run. -/
def c9UpdateOk : FetchOutcome := .response
  ⟨true, 200, "OK", some "application/json", some (.obj [("ok", .bool true)]), none⟩

/-- Verify, submit successfully, then verify again with a transport
failure. -/
def c9Ops : List ResetOp :=
  [.verify c9VerifyOk, .submit "password123" c9UpdateOk, .verify (.netError "boom")]

/-! ## Theorems settling the claims -/

/-- Claim C10: for every forwarded request whose method is not GET, HEAD
or OPTIONS, the proxy's outgoing body is exactly JSON.stringify of the
parsed incoming body, with a nullish incoming body replaced by the empty
object, so a body-less POST is forwarded with the two-character object
literal; for GET, HEAD and OPTIONS no body is forwarded. -/
theorem C10_forward_body :
    (∀ (m : Option String) (b : Json),
        (["GET", "HEAD", "OPTIONS"].contains (m.getD "")) = false →
        forwardBody m b = some (Json.stringify (if b.isNullish then .obj [] else b)))
    ∧ (∀ m : Option String, (["GET", "HEAD", "OPTIONS"].contains (m.getD "")) = false →
        forwardBody m .undefined = some "\x7b\x7d")
    ∧ (Json.stringify (.obj [])).length = 2
    ∧ (∀ (m : Option String) (b : Json),
        (["GET", "HEAD", "OPTIONS"].contains (m.getD "")) = true →
        forwardBody m b = none) := by
  refine ⟨?_, ?_, by decide, ?_⟩
  · intro m b h
    unfold forwardBody
    rw [h]
    simp
  · intro m h
    unfold forwardBody
    rw [h]
    simp only [if_false, Bool.false_eq_true]
    decide
  · intro m b h
    unfold forwardBody
    rw [h]
    simp

/-- Witness for C10 at a concrete input: a POST with an absent body is
forwarded with the literal empty-object string. -/
theorem C10_forward_body_witness :
    forwardBody (some "POST") .undefined = some "\x7b\x7d" :=
  C10_forward_body.2.1 (some "POST") (by decide)

/-- Claim C7 counterexample: te and upgrade are hop-by-hop headers by the
proxy's own list, yet the relay forwards them to the caller. -/
theorem C7_counterexample :
    hopByHopHeaderNames.contains "te" = true
    ∧ hopByHopHeaderNames.contains "upgrade" = true
    ∧ (relayResponse c7Response).headers =
        [("te", "trailers"), ("upgrade", "h2c"), ("content-type", "text/plain")] := by
  refine ⟨by decide, by decide, by decide⟩

/-- Claim C7 (amended): the relay forwards the backend status and the raw
body bytes unchanged, and forwards exactly those backend headers whose
lower-case name is not transfer-encoding, connection or keep-alive; the
other five hop-by-hop headers are not excluded on the response side. -/
theorem C7_relay (r : BackendResponse) :
    (relayResponse r).status = r.status
    ∧ (relayResponse r).body = r.bodyBytes
    ∧ ∀ kv : String × String,
        kv ∈ (relayResponse r).headers ↔
          kv ∈ r.headersList ∧ relaySkippedHeaderNames.contains (jsToLower kv.1) = false := by
  refine ⟨rfl, rfl, fun kv => ?_⟩
  simp [relayResponse, List.mem_filter]

/-- Claim C5 (code evaluation at the failing input): at a 422 update
failure the reset-password page form handler, which the shipped page uses,
surfaces the raw server message, while the useResetPassword hook submit,
which the page does not use, maps the same failure to the fixed
policy-violation string. -/
theorem C5_code_divergence :
    (onSubmitForm (some c5PageVerify) "password123" "password123" c5Fetch).formError
      = some "password rejected by upstream policy"
    ∧ (useResetPasswordSubmit c5HookState "password123" c5Fetch).1.error
      = some policyViolationMessage := by
  exact ⟨rfl, rfl⟩

/-- Claim C2 counterexample: after a verify whose response body pairs
valid false with a non-null email, a submit reaches updatePassword even
though the last verification reported the token invalid. -/
theorem C2_counterexample :
    (runReset (initResetState (some "sometoken")) c2Ops).2.map
        (fun c => (c.password, c.tokenValidAtCall)) = [("password123", some false)]
    ∧ (runReset (initResetState (some "sometoken")) c2Ops).1.isTokenValid = some false := by
  exact ⟨rfl, rfl⟩

/-- Claim C3 counterexample: a response body pairing valid false with a
non-null email yields a verifyToken result and a hook state violating the
claimed invariant. -/
theorem C3_counterexample :
    verifyToken c3Fetch = .ok ⟨false, .str "user@example.com"⟩
    ∧ Json.str "user@example.com" ≠ Json.null
    ∧ (useResetPasswordVerify (initResetState (some "sometoken")) c3Fetch).verifiedEmail
        = .str "user@example.com"
    ∧ (useResetPasswordVerify (initResetState (some "sometoken")) c3Fetch).isTokenValid
        = some false := by
  exact ⟨rfl, fun h => Json.noConfusion h, rfl, rfl⟩

/-- Claim C9 counterexample: verify a valid token, submit successfully,
then verify again with a transport failure; verify does not clear the
success message, so error and success are simultaneously populated. -/
theorem C9_counterexample :
    (runReset (initResetState (some "sometoken")) c9Ops).1.error
        = some "Network error or CORS issue: boom"
    ∧ (runReset (initResetState (some "sometoken")) c9Ops).1.success
        = some updateSuccessMessage := by
  exact ⟨rfl, rfl⟩

/-- Claim C4 counterexample: the target hostname is backend.example, not
localhost, and the first attempt fails with a connection-refused error,
yet the proxy retries, against a URL whose query string was rewritten. -/
theorem C4_counterexample :
    urlHostname c4Url ≠ "localhost"
    ∧ errLooksConnRefused c4Err = true
    ∧ (proxyForward c4Req c4Net).2.map ForwardRequest.url =
        ["http://backend.example/user/verify-token?token=localhost",
         "http://backend.example/user/verify-token?token=127.0.0.1"] := by
  refine ⟨by decide, by decide, by decide⟩

/-- Claim C4 (amended): the fetch phase retries exactly once, with
identical method, headers and body, when the first attempt fails with a
connection-refused-looking error and the backend URL contains the
substring localhost, targeting the URL with its first localhost occurrence
replaced by 127.0.0.1; the retry's outcome is final.  Failures that do not
look connection-refused, or whose URL lacks the substring, propagate
without any retry.  The condition is substring containment in the whole
URL, not a hostname comparison. -/
theorem C4_retry_policy (fr : ForwardRequest)
    (net : ForwardRequest → ProxyFetchResult) :
    (∀ r, net fr = .ok r → proxyForward fr net = (.ok r, [fr]))
    ∧ (∀ e, net fr = .fail e →
        (errLooksConnRefused e = false ∨ jsIncludes fr.url "localhost" = false) →
        proxyForward fr net = (.error e, [fr]))
    ∧ (∀ e, net fr = .fail e → errLooksConnRefused e = true →
        jsIncludes fr.url "localhost" = true →
        (proxyForward fr net).2 =
          [fr, { fr with url := jsReplaceFirst fr.url "localhost" "127.0.0.1" }]
        ∧ (∀ r2, net { fr with url := jsReplaceFirst fr.url "localhost" "127.0.0.1" } = .ok r2 →
            (proxyForward fr net).1 = .ok r2)
        ∧ (∀ e2, net { fr with url := jsReplaceFirst fr.url "localhost" "127.0.0.1" } = .fail e2 →
            (proxyForward fr net).1 = .error e2)) := by
  refine ⟨?_, ?_, ?_⟩
  · intro r h
    simp [proxyForward, h]
  · intro e h hcond
    rcases hcond with hc | hc <;> simp [proxyForward, h, hc]
  · intro e h h1 h2
    cases hn : net { fr with url := jsReplaceFirst fr.url "localhost" "127.0.0.1" } with
    | ok r2 =>
      refine ⟨?_, ?_, ?_⟩
      · simp [proxyForward, h, h1, h2, hn]
      · intro r3 h3
        cases h3
        simp [proxyForward, h, h1, h2, hn]
      · intro e2 h3
        cases h3
    | fail e2 =>
      refine ⟨?_, ?_, ?_⟩
      · simp [proxyForward, h, h1, h2, hn]
      · intro r3 h3
        cases h3
      · intro e3 h3
        cases h3
        simp [proxyForward, h, h1, h2, hn]

/-- Witness for C4 at a concrete input: the default localhost backend,
refused on the first attempt, is retried once against the 127.0.0.1
equivalent with the same method, headers and body. -/
theorem C4_retry_policy_witness :
    (proxyForward c4wReq c4wNet).2 =
      [c4wReq, { c4wReq with url := jsReplaceFirst c4wReq.url "localhost" "127.0.0.1" }] :=
  ((C4_retry_policy c4wReq c4wNet).2.2 c4wErr rfl (by decide) (by decide)).1

/-- Claim C6: buildUrl throws a plain local Error, not a network ApiError,
when no API base is configured; when the configured base matches the
scheme pattern the request path is joined onto the base's origin; and
otherwise the base acts as a path prefix: the result is the base, less one
trailing slash, concatenated with the slash-prefixed path. -/
theorem C6_buildUrl_cases (base path : String) (hp : jsStartsWith path "/" = true) :
    (base = "" →
      buildUrl base path = .error (.plainError "NEXT_PUBLIC_API_BASE is not set"))
    ∧ (base ≠ "" → hasUrlScheme base = true →
      buildUrl base path = .ok (urlOrigin base ++ path))
    ∧ (base ≠ "" → hasUrlScheme base = false →
      ∃ pre, buildUrl base path = .ok (pre ++ path) ∧ (pre = base ∨ pre ++ "/" = base)) := by
  refine ⟨?_, ?_, ?_⟩
  · intro h
    simp [buildUrl, h]
  · intro h1 h2
    simp [buildUrl, h1, h2, jsNewURL]
  · intro h1 h2
    refine ⟨jsReplaceEndSlash base, ?_, ?_⟩
    · simp [buildUrl, h1, h2, hp]
    · unfold jsReplaceEndSlash
      by_cases hL : base.data.getLast? = some '/'
      · rw [if_pos hL]
        right
        have hmem : '/' ∈ base.data.getLast? := Option.mem_def.mpr hL
        have hdl : base.data.dropLast ++ ['/'] = base.data :=
          List.dropLast_append_getLast? '/' hmem
        have : (String.mk base.data.dropLast ++ "/").data = base.data := by
          rw [String.data_append]
          exact hdl
        exact String.ext this
      · rw [if_neg hL]
        left
        rfl

/-- Witness for C6 at a concrete input: the dev-proxy base used by the
repository, which has no scheme and ends without a slash. -/
theorem C6_buildUrl_cases_witness :
    ∃ pre, buildUrl "/api/proxy" "/user/recover-password" = .ok (pre ++ "/user/recover-password")
      ∧ (pre = "/api/proxy" ∨ pre ++ "/" = "/api/proxy") :=
  (C6_buildUrl_cases "/api/proxy" "/user/recover-password" (by decide)).2.2
    (by decide) (by decide)

/-- Claim C1: every ok response, whatever its body, makes
requestRecoveryEmail resolve; and whenever submit issued the call and
requestRecoveryEmail resolved, the displayed info is the fixed generic
confirmation and no error is shown, so the visible outcome cannot depend
on anything in the backend's response body. -/
theorem C1_generic_confirmation :
    (∀ res : HttpResponse, res.ok = true →
      requestRecoveryEmail (.response res) = .ok ())
    ∧ (∀ (s : RequestState) (fetch : FetchOutcome),
      requestRecoveryEmail fetch = .ok () →
      (useRequestResetSubmit s fetch).2 = true →
      (useRequestResetSubmit s fetch).1.info = some genericInfoMessage
      ∧ (useRequestResetSubmit s fetch).1.error = none) := by
  constructor
  · intro res h
    simp [requestRecoveryEmail, fetchWithHandling, handleResponse, h]
  · intro s fetch hok hcalled
    unfold useRequestResetSubmit at *
    by_cases hv : (s.email = "" || !(emailRegexTest s.email)) = true
    · rw [if_pos hv] at hcalled
      simp at hcalled
    · rw [if_neg hv] at hcalled ⊢
      rw [hok]
      exact ⟨rfl, rfl⟩

/-- Witness for C1 at a concrete input: a well-formed email and an ok
response whose body claims the account does not exist still produce the
generic confirmation. -/
theorem C1_generic_confirmation_witness :
    (useRequestResetSubmit c1wState c1wFetch).1.info = some genericInfoMessage :=
  (C1_generic_confirmation.2 c1wState c1wFetch rfl (by decide)).1

/-- An atom run contains no at sign. -/
theorem atomRun_no_at {l : List Char} (h : atomRun l = true) : ∀ c ∈ l, c ≠ '@' := by
  intro c hc heq
  have hall : l.all isAtomChar = true := ((Bool.and_eq_true _ _).mp h).2
  have hat := List.all_eq_true.mp hall c hc
  subst heq
  simp [isAtomChar] at hat

/-- When position i holds the first at sign, dropping the prefix of
non-at-sign characters is dropping i characters. -/
theorem dropWhile_eq_drop_of_first_at (l : List Char) (i : Nat)
    (hi : l.get? i = some '@') (hlt : ∀ c ∈ l.take i, c ≠ '@') :
    l.dropWhile (fun c => c != '@') = l.drop i := by
  induction l generalizing i with
  | nil => simp at hi
  | cons a t ih =>
    cases i with
    | zero =>
      simp at hi
      subst hi
      simp [List.dropWhile]
    | succ n =>
      have ha : a ≠ '@' := hlt a (by simp)
      have ha2 : (a != '@') = true := bne_iff_ne.mpr ha
      rw [List.dropWhile_cons, if_pos ha2, List.drop_succ_cons]
      exact ih n hi (fun c hc => hlt c (by simp [hc]))

/-- A string matched by the email pattern contains an at sign, and the
part after the first at sign contains a dot. -/
theorem emailRegexTest_structure {s : String} (h : emailRegexTest s = true) :
    '@' ∈ s.data ∧ '.' ∈ (s.data.dropWhile (fun c => c != '@')).drop 1 := by
  unfold emailRegexTest at h
  rw [List.any_eq_true] at h
  obtain ⟨i, hmem, hp⟩ := h
  rw [Bool.and_eq_true, Bool.and_eq_true] at hp
  obtain ⟨⟨h1, h2⟩, h3⟩ := hp
  have h1' : s.data.get? i = some '@' := by simpa using h1
  constructor
  · exact List.get?_mem h1'
  · have hdw : s.data.dropWhile (fun c => c != '@') = s.data.drop i :=
      dropWhile_eq_drop_of_first_at _ i h1' (atomRun_no_at h2)
    rw [hdw, List.drop_drop]
    unfold domainMatch at h3
    rw [List.any_eq_true] at h3
    obtain ⟨j, hjmem, hp2⟩ := h3
    rw [Bool.and_eq_true, Bool.and_eq_true] at hp2
    have hj : (s.data.drop (i + 1)).get? j = some '.' := by simpa using hp2.1.1
    have hmem2 : '.' ∈ s.data.drop (i + 1) := List.get?_mem hj
    simpa [Nat.add_comm] using hmem2

/-- Claim C8: for every email that is empty, contains no at sign, or whose
part after the first at sign contains no dot, submit sets the validation
error, shows no info, and does not invoke requestRecoveryEmail, whatever
the network would have answered. -/
theorem C8_malformed_email_rejected (s : RequestState) (fetch : FetchOutcome)
    (h : s.email = "" ∨ '@' ∉ s.email.data ∨
         '.' ∉ (s.email.data.dropWhile (fun c => c != '@')).drop 1) :
    (useRequestResetSubmit s fetch).1.error = some invalidEmailMessage
    ∧ (useRequestResetSubmit s fetch).2 = false
    ∧ (useRequestResetSubmit s fetch).1.info = none := by
  have hcond : (s.email = "" ∨ emailRegexTest s.email = false) := by
    rcases h with h | h | h
    · exact Or.inl h
    · refine Or.inr ?_
      cases hreg : emailRegexTest s.email
      · rfl
      · exact absurd (emailRegexTest_structure hreg).1 h
    · refine Or.inr ?_
      cases hreg : emailRegexTest s.email
      · rfl
      · exact absurd (emailRegexTest_structure hreg).2 h
  rcases hcond with hc | hc
  · simp [useRequestResetSubmit, hc]
  · by_cases he : s.email = ""
    · simp [useRequestResetSubmit, he]
    · simp [useRequestResetSubmit, he, hc]

/-- Witness for C8 at a concrete input: an address without an at sign is
rejected locally. -/
theorem C8_malformed_email_rejected_witness :
    (useRequestResetSubmit c8wState (.netError "unreached")).2 = false :=
  (C8_malformed_email_rejected c8wState (.netError "unreached")
    (Or.inr (Or.inl (by decide)))).2.1

/-- Claim C3 (amended): the verifyToken result and the hook state satisfy
the email-implies-valid invariant exactly when the response body does: for
every response body in which a non-nullish email field comes with a truthy
valid field, in particular for every body the mock verify endpoint
produces, the extracted result has a non-null email only with valid true,
and the verified hook state has a non-null verifiedEmail only with
isTokenValid true.  An inconsistent backend body transfers its
inconsistency to the result, as the counterexample shows. -/
theorem C3_verify_invariant :
    (∀ res : HttpResponse, bodyConsistent (responseBodyOf res) →
      ∀ r, verifyToken (.response res) = .ok r → r.consistent)
    ∧ (∀ t : Option String, bodyConsistent (responseBodyOf (mockVerifyToken t)))
    ∧ (∀ (s : ResetState) (fetch : FetchOutcome),
      (∀ r, verifyToken fetch = .ok r → r.consistent) →
      (useResetPasswordVerify s fetch).verifiedEmail ≠ Json.null →
      (useResetPasswordVerify s fetch).isTokenValid = some true) := by
  refine ⟨?_, ?_, ?_⟩
  · intro res hb r hr
    unfold verifyToken fetchWithHandling handleResponse at hr
    by_cases ho : res.ok
    · simp [ho] at hr
      intro hne
      rw [← hr] at hne ⊢
      show (Json.truthy _) = true
      unfold jsNullishCoalesceNull at hne
      by_cases hn : ((responseBodyOf res).get "email").isNullish
      · rw [if_pos hn] at hne
        exact absurd rfl hne
      · exact hb (Bool.not_eq_true _ ▸ (by simpa using hn))
    · simp [ho] at hr
  · intro t
    unfold bodyConsistent
    cases t with
    | none => decide
    | some t2 =>
      by_cases h1 : t2 = ""
      · simp [mockVerifyToken, h1]
        decide
      · by_cases h2 : jsStartsWith t2 "valid"
        · simp [mockVerifyToken, h1, h2]
          decide
        · simp [mockVerifyToken, h1, h2]
          decide
  · intro s fetch hc hne
    cases ht : s.token with
    | none =>
      rw [show useResetPasswordVerify s fetch =
            { s with isTokenValid := none, verifiedEmail := .null } by
          unfold useResetPasswordVerify
          rw [ht]] at hne
      exact absurd rfl hne
    | some tok =>
      cases hv : verifyToken fetch with
      | error e =>
        rw [show useResetPasswordVerify s fetch =
              { s with
                  error := some (jsOrElse e.message "Error verificando token"),
                  isTokenValid := some false,
                  verifiedEmail := .null,
                  loadingVerify := false,
                  loadingSubmit := s.loadingSubmit } by
            unfold useResetPasswordVerify
            rw [ht, hv]] at hne
        exact absurd rfl hne
      | ok r =>
        have hstate : useResetPasswordVerify s fetch =
            { s with
                isTokenValid := some r.valid,
                verifiedEmail := jsNullishCoalesceNull r.email,
                error := none,
                loadingVerify := false } := by
          unfold useResetPasswordVerify
          rw [ht, hv]
        rw [hstate] at hne ⊢
        have hre : r.email ≠ Json.null := by
          intro he
          rw [show jsNullishCoalesceNull r.email = Json.null by
            rw [he]; rfl] at hne
          exact absurd rfl hne
        have := hc r hv hre
        simp [this]

/-- Witness for C3 at a concrete input: a consistent valid-true body
yields a consistent result. -/
theorem C3_verify_invariant_witness :
    VerifyResult.consistent ⟨true, .str "user@example.com"⟩ :=
  C3_verify_invariant.1 c3wRes (by unfold bodyConsistent; decide)
    ⟨true, .str "user@example.com"⟩ rfl

/-- A truthy value is not null. -/
theorem json_truthy_ne_null {v : Json} (h : v.truthy = true) : v ≠ Json.null := by
  intro he
  subst he
  simp [Json.truthy] at h

/-- A verify step from any state leaves the hook safe, provided its
outcome satisfies the email-implies-valid invariant. -/
theorem verify_safe (s : ResetState) (f : FetchOutcome)
    (hc : verifyOutcomeConsistent (.verify f)) :
    resetSafe (useResetPasswordVerify s f) := by
  unfold resetSafe
  cases ht : s.token with
  | none =>
    simp [useResetPasswordVerify, ht, Json.truthy]
  | some tok =>
    cases hv : verifyToken f with
    | error e =>
      simp [useResetPasswordVerify, ht, hv, Json.truthy]
    | ok r =>
      simp only [useResetPasswordVerify, ht, hv]
      intro h
      have hc2 : r.consistent := by
        have hc3 : (match verifyToken f with
          | Except.ok r2 => r2.consistent
          | Except.error _ => True) := hc
        rw [hv] at hc3
        exact hc3
      have hne : r.email ≠ Json.null := by
        intro he
        rw [show jsNullishCoalesceNull r.email = Json.null by rw [he]; rfl] at h
        simp [Json.truthy] at h
      simp [hc2 hne]

/-- A submit step changes neither the verified email nor the validity
flag. -/
theorem submit_preserves_fields (s : ResetState) (p : String) (f : FetchOutcome) :
    (useResetPasswordSubmit s p f).1.verifiedEmail = s.verifiedEmail
    ∧ (useResetPasswordSubmit s p f).1.isTokenValid = s.isTokenValid := by
  refine ⟨?_, ?_⟩ <;>
    · unfold useResetPasswordSubmit
      dsimp only
      repeat' split
      all_goals rfl

/-- A submit step only issues an updatePassword call carrying the state's
own verified email, and only when that email is truthy. -/
theorem submit_call_shape (s : ResetState) (p : String) (f : FetchOutcome) (c : Json × String)
    (hc : (useResetPasswordSubmit s p f).2 = some c) :
    c.1 = s.verifiedEmail ∧ s.verifiedEmail.truthy = true ∧ c.2 = p := by
  unfold useResetPasswordSubmit at hc
  by_cases h1 : s.verifiedEmail.truthy
  · rw [if_neg (by simpa using h1)] at hc
    by_cases h2 : ((p = "" : Bool) || decide (p.length < 8)) = true
    · rw [if_pos h2] at hc
      cases hc
    · rw [if_neg h2] at hc
      cases hu : updatePassword f with
      | ok u =>
        rw [hu] at hc
        cases hc
        exact ⟨rfl, h1, rfl⟩
      | error e =>
        rw [hu] at hc
        cases hc
        exact ⟨rfl, h1, rfl⟩
  · rw [if_pos (by simpa using h1)] at hc
    cases hc

/-- Safety of whole runs: from a safe state, under consistent verify
outcomes, the state stays safe and every updatePassword call happens with
the token reported valid and a truthy email. -/
theorem runReset_safe_aux (ops : List ResetOp) :
    ∀ s : ResetState, resetSafe s →
    (∀ op ∈ ops, verifyOutcomeConsistent op) →
    resetSafe (runReset s ops).1
    ∧ ∀ c ∈ (runReset s ops).2, c.tokenValidAtCall = some true ∧ c.email.truthy = true := by
  induction ops with
  | nil =>
    intro s hs _
    exact ⟨hs, by simp [runReset]⟩
  | cons op rest ih =>
    intro s hs hops
    have hoph : verifyOutcomeConsistent op := hops op (List.mem_cons_self op rest)
    have hrest : ∀ o ∈ rest, verifyOutcomeConsistent o :=
      fun o ho => hops o (List.mem_cons_of_mem op ho)
    cases op with
    | verify f =>
      have hsafe : resetSafe (useResetPasswordVerify s f) := verify_safe s f hoph
      have hmain := ih (useResetPasswordVerify s f) hsafe hrest
      constructor
      · simpa [runReset, resetStep] using hmain.1
      · intro c hcmem
        apply hmain.2
        simpa [runReset, resetStep] using hcmem
    | submit p f =>
      have hfields := submit_preserves_fields s p f
      have hsafe2 : resetSafe (useResetPasswordSubmit s p f).1 := by
        unfold resetSafe
        rw [hfields.1, hfields.2]
        exact hs
      have hmain := ih _ hsafe2 hrest
      constructor
      · simpa [runReset, resetStep] using hmain.1
      · intro c hcmem
        simp only [runReset, resetStep, List.mem_append] at hcmem
        rcases hcmem with hstep | htail
        · cases ho : (useResetPasswordSubmit s p f).2 with
          | none =>
            rw [ho] at hstep
            simp at hstep
          | some pair =>
            rw [ho] at hstep
            simp at hstep
            have hshape := submit_call_shape s p f pair ho
            subst hstep
            refine ⟨?_, ?_⟩
            · show s.isTokenValid = some true
              exact hs hshape.2.1
            · show pair.1.truthy = true
              rw [hshape.1]
              exact hshape.2.1
        · exact hmain.2 c htail

/-- Claim C2 (amended): in every run of the hook in which each
verification outcome satisfies the email-implies-valid invariant (as every
mock-backend response does), updatePassword is invoked only while the last
verification reported the token valid, and only with the truthy verified
email that verification produced.  Without that assumption on the backend
the property fails, as the counterexample shows, because verify stores the
returned email independently of the valid flag. -/
theorem C2_update_requires_valid_token (t : Option String) (ops : List ResetOp)
    (h : ∀ op ∈ ops, verifyOutcomeConsistent op) :
    ∀ c ∈ (runReset (initResetState t) ops).2,
      c.tokenValidAtCall = some true ∧ c.email.truthy = true :=
  (runReset_safe_aux ops (initResetState t)
    (fun hx => absurd hx (by simp [initResetState, Json.truthy])) h).2

/-- Witness for C2 at a concrete input: a consistent valid verification
followed by a successful submit issues its call with the token valid and
the verified email. -/
theorem C2_update_requires_valid_token_witness :
    (⟨Json.str "user@example.com", "password123", some true⟩ : UpdateCall).tokenValidAtCall
        = some true
    ∧ (Json.str "user@example.com").truthy = true :=
  C2_update_requires_valid_token (some "validtok") c2wOps
    (by
      intro op hop
      rcases List.mem_cons.mp hop with h1 | hop2
      · subst h1
        exact fun _ => rfl
      · rcases List.mem_cons.mp hop2 with h2 | hop3
        · subst h2
          exact trivial
        · cases hop3)
    ⟨Json.str "user@example.com", "password123", some true⟩
    (by
      rw [show (runReset (initResetState (some "validtok")) c2wOps).2 =
          [⟨Json.str "user@example.com", "password123", some true⟩] from rfl]
      exact List.mem_singleton_self _)

/-- A request-reset submit always leaves at most one of error and info
populated. -/
theorem submitReq_at_most_one (s : RequestState) (f : FetchOutcome) :
    atMostOneReq (useRequestResetSubmit s f).1 := by
  unfold atMostOneReq useRequestResetSubmit
  dsimp only
  split
  · exact Or.inr rfl
  · split
    · exact Or.inl rfl
    · exact Or.inr rfl

/-- The request-reset invariant is preserved along any run. -/
theorem runReq_at_most_one_aux (ops : List ReqOp) :
    ∀ s, atMostOneReq s → atMostOneReq (ops.foldl reqStep s) := by
  induction ops with
  | nil => intro s hs; exact hs
  | cons op rest ih =>
    intro s hs
    apply ih
    cases op with
    | setEmail e => exact hs
    | submit f => exact submitReq_at_most_one s f

/-- Verify never touches the success field. -/
theorem verify_preserves_success (s : ResetState) (f : FetchOutcome) :
    (useResetPasswordVerify s f).success = s.success := by
  cases ht : s.token with
  | none => simp [useResetPasswordVerify, ht]
  | some tok =>
    cases hv : verifyToken f with
    | ok r => simp [useResetPasswordVerify, ht, hv]
    | error e => simp [useResetPasswordVerify, ht, hv]

/-- A verify-and-update submit always leaves at most one of error and
success populated. -/
theorem submitReset_at_most_one (s : ResetState) (p : String) (f : FetchOutcome) :
    atMostOneReset (useResetPasswordSubmit s p f).1 := by
  unfold atMostOneReset useResetPasswordSubmit
  dsimp only
  split
  · exact Or.inr rfl
  · split
    · exact Or.inr rfl
    · split
      · exact Or.inl rfl
      · exact Or.inr rfl

/-- Runs decompose over appended operation lists. -/
theorem runReset_append (s : ResetState) (l1 l2 : List ResetOp) :
    (runReset s (l1 ++ l2)).1 = (runReset (runReset s l1).1 l2).1 := by
  induction l1 generalizing s with
  | nil => rfl
  | cons op rest ih =>
    simp only [List.cons_append, runReset]
    exact ih _

/-- A run of verify operations leaves success untouched. -/
theorem runReset_verifies_success (vs : List FetchOutcome) :
    ∀ s : ResetState, (runReset s (vs.map ResetOp.verify)).1.success = s.success := by
  induction vs with
  | nil => intro s; rfl
  | cons f rest ih =>
    intro s
    simp only [List.map_cons, runReset, resetStep]
    rw [ih]
    exact verify_preserves_success s f

/-- A nonempty run of submit operations ends in a state with at most one
of error and success populated, from any starting state. -/
theorem runReset_submits_at_most_one (ss : List (String × FetchOutcome)) :
    ∀ s : ResetState, ss ≠ [] →
    atMostOneReset (runReset s (ss.map (fun q => ResetOp.submit q.1 q.2))).1 := by
  induction ss with
  | nil => intro s h; exact absurd rfl h
  | cons q rest ih =>
    intro s _
    cases rest with
    | nil =>
      simp only [List.map_cons, List.map_nil, runReset, resetStep]
      exact submitReset_at_most_one s q.1 q.2
    | cons q2 rest2 =>
      simp only [List.map_cons, runReset, resetStep]
      exact ih _ (by simp)

/-- Claim C9 (amended): in the request-reset hook at most one of error and
info is populated after every operation sequence.  In the verify-and-update
hook, submit re-establishes the property but verify does not clear
success, so the property holds for every run in which all verifications
precede all submits (the page's order: verify on load, then submit), while
a verify failing after a successful submit populates error and success
together, as the counterexample shows. -/
theorem C9_at_most_one :
    (∀ ops : List ReqOp, atMostOneReq (runReq ops))
    ∧ (∀ (t : Option String) (vs : List FetchOutcome)
        (ss : List (String × FetchOutcome)),
        atMostOneReset (runReset (initResetState t)
          (vs.map ResetOp.verify ++ ss.map (fun q => ResetOp.submit q.1 q.2))).1) := by
  constructor
  · intro ops
    exact runReq_at_most_one_aux ops initialRequestState (Or.inl rfl)
  · intro t vs ss
    rw [runReset_append]
    cases ss with
    | nil =>
      refine Or.inr ?_
      simp only [List.map_nil]
      show (runReset (initResetState t) (vs.map ResetOp.verify)).1.success = none
      rw [runReset_verifies_success]
      rfl
    | cons q rest =>
      exact runReset_submits_at_most_one (q :: rest) _ (by simp)
